import Mathlib

/-!
Verification of the workflow-orchestration core of the Perspective backend.

The development shallowly embeds the LangGraph pipeline of
`app/modules/langgraph_builder.py` together with the node implementations in
`app/modules/langgraph_nodes/{generate_perspective,judge,sentiment}.py` and
`app/modules/fact_check_tool.py`.  The run state is a Python dict; it is
modelled as an association list over the fixed key set used by the pipeline,
with unique keys (Python dicts cannot hold a key twice).  External LLM and
web-search calls are abstracted as oracle parameters returning either a
payload or an exception message (`Except String _`), matching the uniform
`execute(input) -> Ok | Failed` collaborator contract of the code.
-/

namespace Perspective

/-- The state fields used by the pipeline (`MyState` in `langgraph_builder.py`
plus the bookkeeping fields written by nodes). -/
inductive Key where
  | cleaned_text
  | facts
  | sentiment
  | perspective
  | score
  | retries
  | status
  | claims
  | search_queries
  | search_results
  | error_from
  | message
  | fact_check_done
deriving DecidableEq, Repr

/-- Structured output of the generation chain (`PerspectiveOutput` pydantic
model in `generate_perspective.py`). -/
structure PerspectiveOutput where
  reasoning : List String
  perspective : String
deriving DecidableEq, Repr

/-- A verified-fact record as consumed by `generate_perspective` (a JSON dict
whose fields are read with `.get` and fallbacks). -/
structure Fact where
  claim : Option String
  original_claim : Option String
  status : Option String
  verdict : Option String
  reason : Option String
  explanation : Option String
deriving DecidableEq, Repr

/-- One planned search (`{"query": ..., "claim_id": ...}` dict built by
`plan_searches_node`; both fields are read with `.get`, hence optional). -/
structure SearchQuery where
  query : Option String
  claim_id : Option Int
deriving DecidableEq, Repr

/-- One search result (`{"claim_id": ..., "result": ...}` dict built by
`run_one_search` in `execute_searches_node`). -/
structure SearchResultEntry where
  claim_id : Option Int
  result : String
deriving DecidableEq, Repr

/-- Values stored in the run-state dict. `pynone` is Python `None` (what
`dict.get` returns for an absent key when no default is given). -/
inductive Value where
  | str : String → Value
  | int : Int → Value
  | strList : List String → Value
  | queryList : List SearchQuery → Value
  | resultList : List SearchResultEntry → Value
  | factList : List Fact → Value
  | persp : PerspectiveOutput → Value
  | bool : Bool → Value
  | pynone : Value
deriving DecidableEq, Repr

/-- Python truthiness (`if not x`): empty strings/lists, zero, `False` and
`None` are falsy. -/
def truthy : Value → Bool
  | Value.str s => s != ""
  | Value.int n => n != 0
  | Value.strList l => !l.isEmpty
  | Value.queryList l => !l.isEmpty
  | Value.resultList l => !l.isEmpty
  | Value.factList l => !l.isEmpty
  | Value.persp _ => true
  | Value.bool b => b
  | Value.pynone => false

abbrev Entries := List (Key × Value)

/-- First-occurrence lookup in an association list (dict `[]` / `.get`). -/
def lookupRaw : Entries → Key → Option Value
  | [], _ => none
  | (ke, v) :: l, k => if ke = k then some v else lookupRaw l k

/-- Dict assignment `d[k] = v`: replace the value at `k` in place if present,
otherwise append the new binding (Python dicts keep insertion order). -/
def insertRaw : Entries → Key → Value → Entries
  | [], k, v => [(k, v)]
  | (ke, ve) :: l, k, v => if ke = k then (ke, v) :: l else (ke, ve) :: insertRaw l k v

theorem lookupRaw_nil (k : Key) : lookupRaw [] k = none := rfl

theorem lookupRaw_cons (ke : Key) (v : Value) (l : Entries) (k : Key) :
    lookupRaw ((ke, v) :: l) k = if ke = k then some v else lookupRaw l k := rfl

theorem mem_keys_insertRaw {a k : Key} {v : Value} {l : Entries}
    (h : a ∈ (insertRaw l k v).map Prod.fst) : a ∈ l.map Prod.fst ∨ a = k := by
  induction l with
  | nil => simpa [insertRaw] using h
  | cons e l ih =>
    obtain ⟨ke, ve⟩ := e
    by_cases hk : ke = k
    · rw [show insertRaw ((ke, ve) :: l) k v = (ke, v) :: l from by
        rw [insertRaw, if_pos hk]] at h
      simp only [List.map_cons, List.mem_cons] at h
      rcases h with h | h
      · exact Or.inl (by simp [h])
      · exact Or.inl (List.mem_cons_of_mem _ h)
    · rw [show insertRaw ((ke, ve) :: l) k v = (ke, ve) :: insertRaw l k v from by
        rw [insertRaw, if_neg hk]] at h
      simp only [List.map_cons, List.mem_cons] at h
      rcases h with h | h
      · exact Or.inl (by simp [h])
      · rcases ih h with h' | h'
        · exact Or.inl (List.mem_cons_of_mem _ h')
        · exact Or.inr h'

theorem nodup_insertRaw {l : Entries} (k : Key) (v : Value)
    (h : (l.map Prod.fst).Nodup) : ((insertRaw l k v).map Prod.fst).Nodup := by
  induction l with
  | nil => simp [insertRaw]
  | cons e l ih =>
    obtain ⟨ke, ve⟩ := e
    simp only [List.map_cons, List.nodup_cons] at h
    by_cases hk : ke = k
    · rw [show insertRaw ((ke, ve) :: l) k v = (ke, v) :: l from by
        rw [insertRaw, if_pos hk]]
      simp only [List.map_cons, List.nodup_cons]
      exact ⟨h.1, h.2⟩
    · rw [show insertRaw ((ke, ve) :: l) k v = (ke, ve) :: insertRaw l k v from by
        rw [insertRaw, if_neg hk]]
      simp only [List.map_cons, List.nodup_cons]
      refine ⟨fun hmem => ?_, ih h.2⟩
      rcases mem_keys_insertRaw hmem with h' | h'
      · exact h.1 h'
      · exact hk h'

/-- A run state: a Python dict over `Key`, i.e. an association list whose keys
are pairwise distinct. -/
def RState := {l : Entries // (l.map Prod.fst).Nodup}

instance : DecidableEq RState :=
  fun a b => decidable_of_iff (a.val = b.val) Subtype.ext_iff.symm

/-- `state.get(k)` without default: `some v` if present, `none` if absent. -/
def RState.get? (s : RState) (k : Key) : Option Value := lookupRaw s.val k

/-- `state[k] = v` / one key of a dict merge. -/
def RState.insert (s : RState) (k : Key) (v : Value) : RState :=
  ⟨insertRaw s.val k v, nodup_insertRaw k v s.property⟩

/-- `state.get(k)` (default `None`). -/
def pyGet (s : RState) (k : Key) : Value := (s.get? k).getD Value.pynone

/-- `state.get(k, d)` with an arbitrary default value. -/
def getValD (s : RState) (k : Key) (d : Value) : Value := (s.get? k).getD d

/-- `state.get(k, d)` where an integer is expected. -/
def getIntD (s : RState) (k : Key) (d : Int) : Int :=
  match s.get? k with
  | some (Value.int n) => n
  | _ => d

/-- `state.get(k, [])` where a list of claim strings is expected. -/
def getStrListD (s : RState) (k : Key) (d : List String) : List String :=
  match s.get? k with
  | some (Value.strList l) => l
  | _ => d

/-- `state.get(k, [])` where a list of search queries is expected. -/
def getQueryListD (s : RState) (k : Key) (d : List SearchQuery) : List SearchQuery :=
  match s.get? k with
  | some (Value.queryList l) => l
  | _ => d

/-- `state.get(k, [])` where a list of search results is expected. -/
def getResultListD (s : RState) (k : Key) (d : List SearchResultEntry) :
    List SearchResultEntry :=
  match s.get? k with
  | some (Value.resultList l) => l
  | _ => d

/-- Key membership (`k in state`). -/
def RState.contains (s : RState) (k : Key) : Bool := (s.get? k).isSome

/-- Fold a list of bindings into a state, leftmost first: the core of the
dict-spread merge `{**s, **p}`. -/
def applyRaw : RState → Entries → RState
  | s, [] => s
  | s, (k, v) :: l => applyRaw (s.insert k v) l

/-- Replacement-merge `{**s, **p}`: every key present in `p` overwrites the
matching key of `s`, all other keys of `s` are retained.  This is also how
the engine folds a node's returned update into the channel state. -/
def apply (s p : RState) : RState := applyRaw s p.val

/-- Left-biased choice on looked-up values (`p` wins where present). -/
def oor : Option Value → Option Value → Option Value
  | some v, _ => some v
  | none, b => b

theorem oor_some (v : Value) (b : Option Value) : oor (some v) b = some v := rfl

theorem oor_none (b : Option Value) : oor none b = b := rfl

theorem get?_mk (l : Entries) (h : (l.map Prod.fst).Nodup) (k : Key) :
    RState.get? ⟨l, h⟩ k = lookupRaw l k := rfl

theorem get?_insert_self (s : RState) (k : Key) (v : Value) :
    (s.insert k v).get? k = some v := by
  obtain ⟨l, hl⟩ := s
  simp only [RState.insert, RState.get?]
  induction l with
  | nil => simp [insertRaw, lookupRaw]
  | cons e l ih =>
    obtain ⟨ke, ve⟩ := e
    by_cases hk : ke = k
    · subst hk; simp [insertRaw, lookupRaw]
    · simpa [insertRaw, lookupRaw, hk] using ih (by simpa using hl.sublist (by simp))

theorem lookupRaw_insertRaw_ne (l : Entries) {ke k : Key} (v : Value) (h : ke ≠ k) :
    lookupRaw (insertRaw l ke v) k = lookupRaw l k := by
  induction l with
  | nil => simp [insertRaw, lookupRaw, h]
  | cons e l ih =>
    obtain ⟨a, b⟩ := e
    by_cases ha : a = ke
    · subst ha
      simp [insertRaw, lookupRaw, h]
    · simp [insertRaw, lookupRaw, ha, ih]

theorem get?_insert_ne (s : RState) {ke k : Key} (v : Value) (h : ke ≠ k) :
    (s.insert ke v).get? k = s.get? k :=
  lookupRaw_insertRaw_ne s.val v h

theorem lookupRaw_eq_none_of_not_mem {l : Entries} {k : Key}
    (h : k ∉ l.map Prod.fst) : lookupRaw l k = none := by
  induction l with
  | nil => rfl
  | cons e l ih =>
    obtain ⟨ke, ve⟩ := e
    simp only [List.map_cons, List.mem_cons, not_or] at h
    have hne : ¬ ke = k := fun hk => h.1 hk.symm
    simp [lookupRaw, hne, ih h.2]

theorem get?_applyRaw (l : Entries) (hl : (l.map Prod.fst).Nodup) (s : RState) (k : Key) :
    (applyRaw s l).get? k = oor (lookupRaw l k) (s.get? k) := by
  induction l generalizing s with
  | nil => simp [applyRaw, lookupRaw, oor]
  | cons e l ih =>
    obtain ⟨ke, ve⟩ := e
    simp only [List.map_cons, List.nodup_cons] at hl
    by_cases hk : ke = k
    · subst hk
      rw [applyRaw, ih hl.2, lookupRaw_eq_none_of_not_mem hl.1, oor_none,
        get?_insert_self]
      simp [lookupRaw, oor]
    · rw [applyRaw, ih hl.2, get?_insert_ne _ _ hk]
      simp [lookupRaw, hk]

theorem get?_apply (s p : RState) (k : Key) :
    (apply s p).get? k = oor (p.get? k) (s.get? k) :=
  get?_applyRaw p.val p.property s k

theorem contains_apply (s p : RState) (k : Key) :
    (apply s p).contains k = (p.contains k || s.contains k) := by
  rw [RState.contains, get?_apply]
  cases hp : p.get? k with
  | some v => simp [oor, RState.contains, hp]
  | none => simp [oor, RState.contains, hp]

/-! ### Python string helpers (kernel-reducible stand-ins for `str` methods) -/

/-- Python `str.strip()` (trim surrounding whitespace). -/
def pyStripWs (s : String) : String :=
  String.mk (((s.toList.dropWhile Char.isWhitespace).reverse.dropWhile
    Char.isWhitespace).reverse)

/-- Python `str.strip(chars)`: drop the given characters from both ends. -/
def pyStripChars (cs : List Char) (s : String) : String :=
  String.mk (((s.toList.dropWhile (fun c => cs.contains c)).reverse.dropWhile
    (fun c => cs.contains c)).reverse)

/-- Python `str.lower()`. -/
def pyToLower (s : String) : String := String.mk (s.toList.map Char.toLower)

/-- Split a character list at every occurrence of `c`, keeping empty pieces
(Python `str.split(sep)` semantics). -/
def splitOnChar (c : Char) : List Char → List (List Char)
  | [] => [[]]
  | x :: xs =>
    match splitOnChar c xs with
    | [] => if x = c then [[], []] else [[x]]
    | h :: t => if x = c then [] :: h :: t else (x :: h) :: t

/-- Python `raw.split("\n")`. -/
def pySplitLines (s : String) : List String :=
  (splitOnChar (Char.ofNat 10) s.toList).map String.mk

/-! ### Routers (`langgraph_builder.py`, conditional edges)

Each router is the lambda passed to `add_conditional_edges`, a pure function
from the merged state to the name of the next node. -/

/-- Router after `parallel_analysis`:
`"error_handler" if x.get("status") == "error" else "generate_perspective"`. -/
def route_after_parallel_analysis (x : RState) : String :=
  if x.get? Key.status = some (Value.str "error") then "error_handler"
  else "generate_perspective"

/-- Router after `generate_perspective`:
`"error_handler" if x.get("status") == "error" else "judge_perspective"`. -/
def route_after_generate (x : RState) : String :=
  if x.get? Key.status = some (Value.str "error") then "error_handler"
  else "judge_perspective"

/-- Router after `judge_perspective`, with exactly the nesting of the source
lambda: error check first, then the `score < 70` conditional selecting between
the retry test and `store_and_send`. -/
def route_after_judge (state : RState) : String :=
  if state.get? Key.status = some (Value.str "error") then "error_handler"
  else
    if getIntD state Key.score 0 < 70 then
      if getIntD state Key.retries 0 ≥ 3 then "store_and_send"
      else "generate_perspective"
    else "store_and_send"

/-- Router after `store_and_send`. -/
def route_after_store (x : RState) : String :=
  if x.get? Key.status = some (Value.str "error") then "error_handler"
  else "__end__"

/-- Node names registered in the graph, plus the `__end__` marker. -/
inductive NodeId where
  | parallel_analysis
  | generate_perspective
  | judge_perspective
  | store_and_send
  | error_handler
  | endNode
deriving DecidableEq, Repr

/-- Resolve a router's returned node name. -/
def toNode : String → NodeId
  | "parallel_analysis" => NodeId.parallel_analysis
  | "generate_perspective" => NodeId.generate_perspective
  | "judge_perspective" => NodeId.judge_perspective
  | "store_and_send" => NodeId.store_and_send
  | "error_handler" => NodeId.error_handler
  | _ => NodeId.endNode

/-! ### Generate node (`generate_perspective.py`) -/

/-- The error update returned by `generate_perspective`'s `except` branch. -/
def genErrorUpdate (msg : String) : RState :=
  ⟨[(Key.status, Value.str "error"),
    (Key.error_from, Value.str "generate_perspective"),
    (Key.message, Value.str msg)], by simp⟩

/-- The in-place mutation performed at the top of `generate_perspective`:
`retries = state.get("retries", 0); state["retries"] = retries + 1`
(lines 52–53).  This is the value of the caller's dict after the node runs. -/
def generate_mutated_input (state : RState) : RState :=
  state.insert Key.retries (Value.int (getIntD state Key.retries 0 + 1))

/-- One fact line of the prompt context (lines 64–71). -/
def factLine (f : Fact) : String :=
  "Claim: " ++ (f.claim.getD (f.original_claim.getD "Unknown Claim")) ++ "\n" ++
  "Verdict: " ++ (f.status.getD (f.verdict.getD "Unknown Verdict")) ++ "\n" ++
  "Explanation: " ++ (f.reason.getD (f.explanation.getD "No explanation"))

/-- `facts_str`: the joined fact context, or the fallback text when
`state.get("facts")` is falsy. -/
def factsStr (facts : Value) : String :=
  if truthy facts then
    match facts with
    | Value.factList fs => String.intercalate "\n" (fs.map factLine)
    | _ => ""
  else "No specific claims verified."

/-- `generate_perspective(state)`: increments `retries` in the received dict,
validates `cleaned_text`, invokes the generation chain (abstracted as
`oracle`), and returns `{**state, "perspective": result, "status": "success"}`
on success or the error update on any exception. -/
def generate_perspective (oracle : Except String PerspectiveOutput)
    (state : RState) : RState :=
  let state1 := generate_mutated_input state
  match state1.get? Key.cleaned_text with
  | none => genErrorUpdate "'cleaned_text'"
  | some text =>
    if truthy text = false then
      genErrorUpdate "Missing or empty 'cleaned_text' in state"
    else
      match oracle with
      | Except.ok result =>
        apply state1 ⟨[(Key.perspective, Value.persp result),
                       (Key.status, Value.str "success")], by simp⟩
      | Except.error msg => genErrorUpdate msg

/-! ### Judge node (`judge.py`) -/

/-- The error update returned by `judge_perspective`'s `except` branch. -/
def judgeErrorUpdate (msg : String) : RState :=
  ⟨[(Key.status, Value.str "error"),
    (Key.error_from, Value.str "judge_perspective"),
    (Key.message, Value.str msg)], by simp⟩

/-- `max(0, min(100, int(m.group(1))))` (line 64). -/
def clampScore (n : Int) : Int := max 0 (min 100 n)

/-- `judge_perspective(state)`: reads the perspective text via
`getattr(state.get("perspective"), "perspective", "").strip()`, scores it with
the LLM (abstracted as `oracle`, yielding the parsed integer), and returns
`{**state, "score": ..., "status": "success"}` or the error update. -/
def judge_perspective (oracle : Except String Int) (state : RState) : RState :=
  let text := pyStripWs (match state.get? Key.perspective with
    | some (Value.persp p) => p.perspective
    | _ => "")
  if text = "" then judgeErrorUpdate "Empty 'perspective' for scoring"
  else
    match oracle with
    | Except.ok n =>
      apply state ⟨[(Key.score, Value.int (clampScore n)),
                    (Key.status, Value.str "success")], by simp⟩
    | Except.error msg => judgeErrorUpdate msg

/-! ### Fact-check tool sub-chain (`fact_check_tool.py`) -/

/-- `[line.strip("- *") for line in raw_content.split("\n")
if len(line.strip()) > 10]` (line 42). -/
def claimsFromRaw (raw : String) : List String :=
  ((pySplitLines raw).filter (fun line => 10 < (pyStripWs line).length)).map
    (pyStripChars ['-', ' ', '*'])

/-- `extract_claims_node`: extracts claims from the LLM reply (abstracted as
`oracle`); any exception is caught and yields `{"claims": []}`. -/
def extract_claims_node (oracle : Except String String) (_state : RState) : RState :=
  match oracle with
  | Except.ok raw => ⟨[(Key.claims, Value.strList (claimsFromRaw raw))], by simp⟩
  | Except.error _ => ⟨[(Key.claims, Value.strList [])], by simp⟩

/-- `plan_searches_node`: returns `{"search_queries": []}` for an empty claim
list, otherwise the parsed search plan (abstracted as `oracle`; parse or call
failure is caught and yields `[]`). -/
def plan_searches_node (oracle : Except String (List SearchQuery))
    (state : RState) : RState :=
  let claims := getStrListD state Key.claims []
  if claims.isEmpty then ⟨[(Key.search_queries, Value.queryList [])], by simp⟩
  else
    match oracle with
    | Except.ok queries =>
      ⟨[(Key.search_queries, Value.queryList queries)], by simp⟩
    | Except.error _ => ⟨[(Key.search_queries, Value.queryList [])], by simp⟩

/-- The body of `run_one_search`'s `try` block: invoke the search tool
(abstracted as `searchO`) and pair the result with the query's `claim_id`. -/
def run_one_search_raw (searchO : Option String → Except String String)
    (q : SearchQuery) : Except String SearchResultEntry :=
  match searchO q.query with
  | Except.ok res => Except.ok ⟨q.claim_id, res⟩
  | Except.error e => Except.error e

/-- `run_one_search`: the contained per-task unit — any exception is caught
and replaced by the sentinel `{"claim_id": ..., "result": "Search failed"}`
with the correlation id preserved. -/
def run_one_search (searchO : Option String → Except String String)
    (q : SearchQuery) : SearchResultEntry :=
  match run_one_search_raw searchO q with
  | Except.ok r => r
  | Except.error _ => ⟨q.claim_id, "Search failed"⟩

/-- `execute_searches_node`: the fan-out executor.  Returns immediately on an
empty plan; otherwise gathers one `run_one_search` per query, in submission
order (`asyncio.gather` preserves order). -/
def execute_searches_node (searchO : Option String → Except String String)
    (state : RState) : RState :=
  let queries := getQueryListD state Key.search_queries []
  if queries.isEmpty then ⟨[(Key.search_results, Value.resultList [])], by simp⟩
  else ⟨[(Key.search_results,
          Value.resultList (queries.map (run_one_search searchO)))], by simp⟩

/-- The fault raised by the context-building loop of `verify_facts_node`
(lines 126–129, outside the `try`): comparing a `None` claim id with
`len(claims)` raises `TypeError`; an index below `-len(claims)` raises
`IndexError` at `claims[c_id]`. -/
def contextFault? (claims : List String) (results : List SearchResultEntry) :
    Option String :=
  results.findSome? (fun item =>
    match item.claim_id with
    | none => some "TypeError: NoneType comparison"
    | some c =>
      if c < -(claims.length : Int) then some "IndexError: list index out of range"
      else none)

/-- `verify_facts_node`: short-circuits with empty facts when there are no
claims; otherwise builds the context (which can raise, see `contextFault?`)
and asks the verifier LLM (abstracted as `oracle`; its failure is caught and
yields `{"facts": []}`). -/
def verify_facts_node (oracle : Except String (List Fact)) (state : RState) :
    Except String RState :=
  let claims := getStrListD state Key.claims []
  let results := getResultListD state Key.search_results []
  if claims.isEmpty then
    Except.ok ⟨[(Key.facts, Value.factList []),
                (Key.fact_check_done, Value.bool true)], by simp⟩
  else
    match contextFault? claims results with
    | some msg => Except.error msg
    | none =>
      match oracle with
      | Except.ok facts =>
        Except.ok ⟨[(Key.facts, Value.factList facts),
                    (Key.fact_check_done, Value.bool true)], by simp⟩
      | Except.error _ =>
        Except.ok ⟨[(Key.facts, Value.factList []),
                    (Key.fact_check_done, Value.bool true)], by simp⟩

/-! ### Sentiment branch and parallel analysis (`sentiment.py`) -/

/-- Oracle bundle for the analysis stage: one abstract external call per
collaborator invoked during `run_parallel_analysis`. -/
structure AnalysisOracles where
  sent : Except String String
  extract : Except String String
  plan : Except String (List SearchQuery)
  search : Option String → Except String String
  verify : Except String (List Fact)

/-- The error update returned by `run_sentiment_sdk`'s `except` branch. -/
def sentErrorUpdate (msg : String) : RState :=
  ⟨[(Key.status, Value.str "error"),
    (Key.error_from, Value.str "sentiment_analysis"),
    (Key.message, Value.str msg)], by simp⟩

/-- `run_sentiment_sdk(state)`: validates `cleaned_text`, classifies with the
LLM (abstracted as `oracle`), lower-cases the stripped reply, and returns
`{**state, "sentiment": ..., "status": "success"}` or the error update. -/
def run_sentiment_sdk (oracle : Except String String) (state : RState) : RState :=
  let text := pyGet state Key.cleaned_text
  if truthy text = false then
    sentErrorUpdate "Missing or empty 'cleaned_text' in state"
  else
    match oracle with
    | Except.ok content =>
      apply state ⟨[(Key.sentiment, Value.str (pyToLower (pyStripWs content))),
                    (Key.status, Value.str "success")], by simp⟩
    | Except.error msg => sentErrorUpdate msg

/-- The summary update returned at the end of `run_fact_check_pipeline`'s
`try` block (lines 52–58 of `sentiment.py`). -/
def fcSuccessUpdate (cl sq sr fa : Value) : RState :=
  ⟨[(Key.claims, cl),
    (Key.search_queries, sq),
    (Key.search_results, sr),
    (Key.facts, fa),
    (Key.status, Value.str "success")], by simp⟩

/-- The error update returned by `run_fact_check_pipeline`'s `except` branch. -/
def fcErrorUpdate (msg : String) : RState :=
  ⟨[(Key.status, Value.str "error"),
    (Key.error_from, Value.str "fact_checking"),
    (Key.message, Value.str msg)], by simp⟩

/-- The `try` block of `run_fact_check_pipeline`: the sequential sub-chain
`extract_claims -> plan_searches -> execute_searches -> verify_facts`, each
step's update merged into the running state, ending in the returned summary
update.  An `Except.error` is an exception escaping the `try` block. -/
def pipelineTry (O : AnalysisOracles) (state : RState) : Except String RState :=
  let claims_result := extract_claims_node O.extract state
  let cur1 := apply state claims_result
  let searches_result := plan_searches_node O.plan cur1
  let cur2 := apply cur1 searches_result
  let exec_result := execute_searches_node O.search cur2
  let cur3 := apply cur2 exec_result
  match verify_facts_node O.verify cur3 with
  | Except.error msg => Except.error msg
  | Except.ok verify_result =>
    let cur4 := apply cur3 verify_result
    Except.ok (fcSuccessUpdate
      (getValD cur4 Key.claims (Value.strList []))
      (getValD cur4 Key.search_queries (Value.queryList []))
      (getValD cur4 Key.search_results (Value.resultList []))
      (getValD cur4 Key.facts (Value.factList [])))

/-- `run_fact_check_pipeline(state)`: the FactCheck branch; any exception in
the sub-chain is caught and converted to a `status=error` update attributed to
`fact_checking`. -/
def run_fact_check_pipeline (O : AnalysisOracles) (state : RState) : RState :=
  match pipelineTry O state with
  | Except.ok p => p
  | Except.error msg => fcErrorUpdate msg

/-- `run_parallel_analysis(state)`: gathers the Sentiment branch and the
FactCheck branch on the same input snapshot, then checks the sentiment result
for error first, then the fact-check result, and otherwise merges both
branches' outputs into `{**state, ...}` with `status="success"`. -/
def run_parallel_analysis (O : AnalysisOracles) (state : RState) : RState :=
  let sentiment_result := run_sentiment_sdk O.sent state
  let fact_check_result := run_fact_check_pipeline O state
  if sentiment_result.get? Key.status = some (Value.str "error") then
    ⟨[(Key.status, Value.str "error"),
      (Key.error_from,
        getValD sentiment_result Key.error_from (Value.str "sentiment_analysis")),
      (Key.message, getValD sentiment_result Key.message (Value.str "Unknown error"))],
      by simp⟩
  else if fact_check_result.get? Key.status = some (Value.str "error") then
    ⟨[(Key.status, Value.str "error"),
      (Key.error_from,
        getValD fact_check_result Key.error_from (Value.str "fact_checking")),
      (Key.message, getValD fact_check_result Key.message (Value.str "Unknown error"))],
      by simp⟩
  else
    apply state
      ⟨[(Key.sentiment, pyGet sentiment_result Key.sentiment),
        (Key.claims, getValD fact_check_result Key.claims (Value.strList [])),
        (Key.search_queries,
          getValD fact_check_result Key.search_queries (Value.queryList [])),
        (Key.search_results,
          getValD fact_check_result Key.search_results (Value.resultList [])),
        (Key.facts, getValD fact_check_result Key.facts (Value.factList [])),
        (Key.status, Value.str "success")], by simp⟩

/-! ### Graph engine (`build_langgraph` + LangGraph execution model)

A node receives the current channel state, returns an update; the engine
merges the update into the state and only then evaluates the conditional-edge
router on the merged state.  `store_and_send` and `error_handler` are the two
absorbing endpoints of every traversal (their bodies are persistence /
notification collaborators outside the orchestration core), so runs are
observed up to entry into either. -/

/-- Node behaviors for a run: the analysis stage, and the generate / judge
nodes indexed by how many times each has already fired (each LLM invocation
may answer differently). -/
structure EngineConfig where
  analysis : RState → RState
  gen : Nat → RState → RState
  judge : Nat → RState → RState

/-- Result of driving the engine: the terminal node reached, the state with
which it was entered, and the number of entries into `generate_perspective`;
or fuel exhaustion. -/
inductive Outcome where
  | reached : NodeId → RState → Nat → Outcome
  | outOfFuel : Outcome
deriving DecidableEq

/-- Fuel-indexed engine traversal from a node: run the node on the state,
merge its update, route on the merged state, repeat. -/
def runFrom (cfg : EngineConfig) : Nat → NodeId → RState → Nat → Nat → Outcome
  | 0, _, _, _, _ => Outcome.outOfFuel
  | _ + 1, NodeId.store_and_send, s, g, _ => Outcome.reached NodeId.store_and_send s g
  | _ + 1, NodeId.error_handler, s, g, _ => Outcome.reached NodeId.error_handler s g
  | _ + 1, NodeId.endNode, s, g, _ => Outcome.reached NodeId.endNode s g
  | fuel + 1, NodeId.parallel_analysis, s, g, j =>
    runFrom cfg fuel
      (toNode (route_after_parallel_analysis (apply s (cfg.analysis s))))
      (apply s (cfg.analysis s)) g j
  | fuel + 1, NodeId.generate_perspective, s, g, j =>
    runFrom cfg fuel
      (toNode (route_after_generate (apply s (cfg.gen g s))))
      (apply s (cfg.gen g s)) (g + 1) j
  | fuel + 1, NodeId.judge_perspective, s, g, j =>
    runFrom cfg fuel
      (toNode (route_after_judge (apply s (cfg.judge j s))))
      (apply s (cfg.judge j s)) g (j + 1)

/-- The compiled graph with the actual node implementations plugged in:
entry point `parallel_analysis`, generation and judging driven by
per-invocation oracles. -/
def mkConfig (aFn : RState → RState) (genO : Nat → Except String PerspectiveOutput)
    (judO : Nat → Except String Int) : EngineConfig where
  analysis := aFn
  gen := fun i s => generate_perspective (genO i) s
  judge := fun j s => judge_perspective (judO j) s

theorem runFrom_store (cfg : EngineConfig) (fuel : Nat) (s : RState) (g j : Nat) :
    runFrom cfg (fuel + 1) NodeId.store_and_send s g j =
      Outcome.reached NodeId.store_and_send s g := rfl

theorem runFrom_analysis (cfg : EngineConfig) (fuel : Nat) (s : RState) (g j : Nat) :
    runFrom cfg (fuel + 1) NodeId.parallel_analysis s g j =
      runFrom cfg fuel
        (toNode (route_after_parallel_analysis (apply s (cfg.analysis s))))
        (apply s (cfg.analysis s)) g j := rfl

theorem runFrom_generate (cfg : EngineConfig) (fuel : Nat) (s : RState) (g j : Nat) :
    runFrom cfg (fuel + 1) NodeId.generate_perspective s g j =
      runFrom cfg fuel
        (toNode (route_after_generate (apply s (cfg.gen g s))))
        (apply s (cfg.gen g s)) (g + 1) j := rfl

theorem runFrom_judge (cfg : EngineConfig) (fuel : Nat) (s : RState) (g j : Nat) :
    runFrom cfg (fuel + 1) NodeId.judge_perspective s g j =
      runFrom cfg fuel
        (toNode (route_after_judge (apply s (cfg.judge j s))))
        (apply s (cfg.judge j s)) g (j + 1) := rfl

attribute [simp] oor_some oor_none get?_mk lookupRaw_nil lookupRaw_cons get?_apply
attribute [simp] get?_insert_self

/-! ### Shape lemmas for branch results -/

/-- The update built by `run_sentiment_sdk` on success. -/
def sentSuccessUpdate (c : String) : RState :=
  ⟨[(Key.sentiment, Value.str c), (Key.status, Value.str "success")], by simp⟩

theorem run_sentiment_sdk_cases (o : Except String String) (state : RState) :
    (∃ msg, run_sentiment_sdk o state = sentErrorUpdate msg)
    ∨ (∃ c, run_sentiment_sdk o state = apply state (sentSuccessUpdate c)) := by
  rw [run_sentiment_sdk.eq_def]
  by_cases ht : truthy (pyGet state Key.cleaned_text) = false
  · exact Or.inl ⟨_, by rw [if_pos ht]⟩
  · rw [if_neg ht]
    cases o with
    | ok content =>
      exact Or.inr ⟨pyToLower (pyStripWs content), rfl⟩
    | error msg => exact Or.inl ⟨msg, rfl⟩

theorem sentErrorUpdate_status (msg : String) :
    (sentErrorUpdate msg).get? Key.status = some (Value.str "error") := by
  simp [sentErrorUpdate]

theorem sentErrorUpdate_error_from (msg : String) :
    (sentErrorUpdate msg).get? Key.error_from = some (Value.str "sentiment_analysis") := by
  simp [sentErrorUpdate]

theorem sentSuccess_status (state : RState) (c : String) :
    (apply state (sentSuccessUpdate c)).get? Key.status = some (Value.str "success") := by
  simp [sentSuccessUpdate]

theorem sentSuccess_sentiment (state : RState) (c : String) :
    (apply state (sentSuccessUpdate c)).get? Key.sentiment = some (Value.str c) := by
  simp [sentSuccessUpdate]

theorem pipelineTry_ok_shape (O : AnalysisOracles) (state : RState) (p : RState)
    (h : pipelineTry O state = Except.ok p) :
    ∃ cl sq sr fa, p = fcSuccessUpdate cl sq sr fa := by
  rw [pipelineTry] at h
  rcases hv : verify_facts_node O.verify
      (apply (apply (apply state (extract_claims_node O.extract state))
        (plan_searches_node O.plan (apply state (extract_claims_node O.extract state))))
        (execute_searches_node O.search
          (apply (apply state (extract_claims_node O.extract state))
            (plan_searches_node O.plan
              (apply state (extract_claims_node O.extract state)))))) with
    vr | vr
  all_goals rw [hv] at h
  · cases h
  · exact ⟨_, _, _, _, (Except.ok.injEq _ _ ▸ h).symm⟩

theorem run_fact_check_pipeline_cases (O : AnalysisOracles) (state : RState) :
    (∃ msg, run_fact_check_pipeline O state = fcErrorUpdate msg)
    ∨ (∃ cl sq sr fa, run_fact_check_pipeline O state = fcSuccessUpdate cl sq sr fa) := by
  rw [run_fact_check_pipeline]
  cases hp : pipelineTry O state with
  | ok p => exact Or.inr (pipelineTry_ok_shape O state p hp)
  | error msg => exact Or.inl ⟨msg, rfl⟩

theorem fcErrorUpdate_status (msg : String) :
    (fcErrorUpdate msg).get? Key.status = some (Value.str "error") := by
  simp [fcErrorUpdate]

theorem fcErrorUpdate_error_from (msg : String) :
    (fcErrorUpdate msg).get? Key.error_from = some (Value.str "fact_checking") := by
  simp [fcErrorUpdate]

theorem fcSuccessUpdate_status (cl sq sr fa : Value) :
    (fcSuccessUpdate cl sq sr fa).get? Key.status = some (Value.str "success") := by
  simp [fcSuccessUpdate]

/-! ### Claim theorems -/

/-- C2: after the Judge node the router is exactly three-way: `error_handler`
when `status = "error"`; `generate_perspective` when the status is not error,
the score is below 70 and fewer than 3 retries have happened; `store_and_send`
in every other non-error case (score at least 70, or retries exhausted). -/
theorem judge_router_three_way (s : RState) :
    route_after_judge s =
      if s.get? Key.status = some (Value.str "error") then "error_handler"
      else if getIntD s Key.score 0 < 70 ∧ getIntD s Key.retries 0 < 3 then
        "generate_perspective"
      else "store_and_send" := by
  by_cases h1 : s.get? Key.status = some (Value.str "error")
  · simp [route_after_judge, h1]
  · by_cases h2 : getIntD s Key.score 0 < 70
    · by_cases h3 : getIntD s Key.retries 0 ≥ 3
      · have hand : ¬(getIntD s Key.score 0 < 70 ∧ getIntD s Key.retries 0 < 3) := by
          omega
        have hr : ¬(getIntD s Key.retries 0 < 3) := by omega
        simp [route_after_judge, h1, h2, h3, hand, hr]
      · have hand : getIntD s Key.score 0 < 70 ∧ getIntD s Key.retries 0 < 3 := by
          omega
        simp [route_after_judge, h1, h2, h3, hand]
    · have hand : ¬(getIntD s Key.score 0 < 70 ∧ getIntD s Key.retries 0 < 3) := by
        omega
      simp [route_after_judge, h1, h2, hand]

/-- C7: the replacement-merge `apply(s, p)` is the left-biased union of the
two dicts: every key present in `p` takes `p`'s value, every other key keeps
`s`'s value, and no key of either dict is deleted. -/
theorem apply_merge_semantics (s p : RState) (k : Key) :
    (apply s p).get? k = (if p.contains k then p.get? k else s.get? k)
    ∧ (apply s p).contains k = (s.contains k || p.contains k) := by
  constructor
  · rw [get?_apply]
    cases hp : p.get? k with
    | some v => simp [RState.contains, hp]
    | none => simp [RState.contains, hp]
  · rw [contains_apply, Bool.or_comm]

/-- C10: after the Judge node, a missing `score` key is read as `0` and a
missing `retries` key is read as `0`: with `score` absent and no error status,
the router loops back to `generate_perspective` while `retries < 3` and moves
to `store_and_send` once `retries >= 3`. -/
theorem judge_router_missing_defaults (s : RState)
    (hs : s.get? Key.status ≠ some (Value.str "error"))
    (hsc : s.get? Key.score = none) :
    (getIntD s Key.retries 0 < 3 → route_after_judge s = "generate_perspective")
    ∧ (3 ≤ getIntD s Key.retries 0 → route_after_judge s = "store_and_send") := by
  have h0 : getIntD s Key.score 0 = 0 := by simp [getIntD, hsc]
  constructor
  · intro hr
    have hr' : ¬(getIntD s Key.retries 0 ≥ 3) := by omega
    simp [route_after_judge, hs, h0, hr']
  · intro hr
    have hr' : getIntD s Key.retries 0 ≥ 3 := hr
    simp [route_after_judge, hs, h0, hr']

/-- The empty initial dict. -/
def rsEmpty : RState := ⟨[], by simp⟩

/-- A dict carrying only exhausted retries. -/
def rsRetries3 : RState := ⟨[(Key.retries, Value.int 3)], by simp⟩

theorem judge_router_missing_defaults_witness :
    route_after_judge rsEmpty = "generate_perspective"
    ∧ route_after_judge rsRetries3 = "store_and_send" :=
  ⟨(judge_router_missing_defaults rsEmpty (by decide) rfl).1 (by decide),
   (judge_router_missing_defaults rsRetries3 (by decide) rfl).2 (by decide)⟩

/-- C3: the fan-out executor returns exactly one result per submitted query,
in submission order; a failing task is recorded as the sentinel result with
its `claim_id` correlation id preserved while sibling tasks are unaffected,
and the node itself completes with the result list and no error signal. -/
theorem fanout_failure_containment (searchO : Option String → Except String String)
    (state : RState) (queries : List SearchQuery)
    (hq : state.get? Key.search_queries = some (Value.queryList queries)) :
    (execute_searches_node searchO state).get? Key.search_results
      = some (Value.resultList (queries.map (run_one_search searchO)))
    ∧ (queries.map (run_one_search searchO)).length = queries.length
    ∧ (∀ i : Nat, (queries.map (run_one_search searchO))[i]?
        = (queries[i]?).map (run_one_search searchO))
    ∧ (∀ q : SearchQuery, ∀ e : String,
        run_one_search_raw searchO q = Except.error e →
        run_one_search searchO q = ⟨q.claim_id, "Search failed"⟩)
    ∧ (∀ q : SearchQuery, ∀ r : SearchResultEntry,
        run_one_search_raw searchO q = Except.ok r →
        run_one_search searchO q = r)
    ∧ (execute_searches_node searchO state).contains Key.status = false := by
  have hqd : getQueryListD state Key.search_queries [] = queries := by
    simp [getQueryListD, hq]
  have hnode : execute_searches_node searchO state =
      ⟨[(Key.search_results,
         Value.resultList (queries.map (run_one_search searchO)))], by simp⟩ := by
    rw [execute_searches_node.eq_def, hqd]
    by_cases he : queries.isEmpty
    · rw [if_pos he]
      rw [List.isEmpty_iff] at he
      subst he
      rfl
    · rw [if_neg he]
  refine ⟨?_, List.length_map _ _, fun i => List.getElem?_map .., ?_, ?_, ?_⟩
  · rw [hnode]; simp
  · intro q e h
    rw [run_one_search, h]
  · intro q r h
    rw [run_one_search, h]
  · rw [hnode]; simp [RState.contains]

/-- A query whose search succeeds. -/
def qGood : SearchQuery := ⟨some "good", some 0⟩

/-- A query whose search raises. -/
def qBad : SearchQuery := ⟨some "bad", some 1⟩

/-- A search oracle that raises on `qBad` only. -/
def searchOW : Option String → Except String String :=
  fun q => if q = some "bad" then Except.error "boom" else Except.ok "found"

/-- A state holding a two-query search plan. -/
def stateW3 : RState := ⟨[(Key.search_queries, Value.queryList [qGood, qBad])], by simp⟩

theorem fanout_failure_containment_witness :
    (execute_searches_node searchOW stateW3).get? Key.search_results
      = some (Value.resultList [⟨some 0, "found"⟩, ⟨some 1, "Search failed"⟩])
    ∧ run_one_search searchOW qBad = ⟨some 1, "Search failed"⟩
    ∧ (execute_searches_node searchOW stateW3).contains Key.status = false := by
  have h := fanout_failure_containment searchOW stateW3 [qGood, qBad] rfl
  refine ⟨?_, h.2.2.2.1 qBad "boom" (by rfl), h.2.2.2.2.2⟩
  rw [h.1]
  decide

theorem sent_error_from_of_error (o : Except String String) (state : RState)
    (h : (run_sentiment_sdk o state).get? Key.status = some (Value.str "error")) :
    getValD (run_sentiment_sdk o state) Key.error_from (Value.str "sentiment_analysis")
      = Value.str "sentiment_analysis" := by
  rcases run_sentiment_sdk_cases o state with ⟨msg, hm⟩ | ⟨c, hc⟩
  · rw [hm]; simp [sentErrorUpdate, getValD, RState.get?]
  · rw [hc, sentSuccess_status] at h
    exact absurd h (by decide)

theorem fc_error_from_of_error (O : AnalysisOracles) (state : RState)
    (h : (run_fact_check_pipeline O state).get? Key.status = some (Value.str "error")) :
    getValD (run_fact_check_pipeline O state) Key.error_from (Value.str "fact_checking")
      = Value.str "fact_checking" := by
  rcases run_fact_check_pipeline_cases O state with ⟨msg, hm⟩ | ⟨cl, sq, sr, fa, hfc⟩
  · rw [hm]; simp [fcErrorUpdate, getValD, RState.get?]
  · rw [hfc, fcSuccessUpdate_status] at h
    exact absurd h (by decide)

/-- C4: if either branch of the parallel-analysis stage signals
`status=error`, the stage's whole result is an error update whose
`error_from` names the first failing branch in evaluation order (sentiment is
checked before fact-checking), and the result carries none of the analysis
output fields. -/
theorem analysis_branch_failure_atomic (O : AnalysisOracles) (state : RState)
    (h : (run_sentiment_sdk O.sent state).get? Key.status = some (Value.str "error")
       ∨ (run_fact_check_pipeline O state).get? Key.status = some (Value.str "error")) :
    (run_parallel_analysis O state).get? Key.status = some (Value.str "error")
    ∧ (run_parallel_analysis O state).get? Key.error_from
        = some (Value.str
            (if (run_sentiment_sdk O.sent state).get? Key.status
                = some (Value.str "error")
             then "sentiment_analysis" else "fact_checking"))
    ∧ (run_parallel_analysis O state).contains Key.claims = false
    ∧ (run_parallel_analysis O state).contains Key.facts = false
    ∧ (run_parallel_analysis O state).contains Key.search_queries = false
    ∧ (run_parallel_analysis O state).contains Key.search_results = false
    ∧ (run_parallel_analysis O state).contains Key.sentiment = false := by
  by_cases hsent :
      (run_sentiment_sdk O.sent state).get? Key.status = some (Value.str "error")
  · have hres : run_parallel_analysis O state =
        ⟨[(Key.status, Value.str "error"),
          (Key.error_from,
            getValD (run_sentiment_sdk O.sent state) Key.error_from
              (Value.str "sentiment_analysis")),
          (Key.message,
            getValD (run_sentiment_sdk O.sent state) Key.message
              (Value.str "Unknown error"))], by simp⟩ := by
      simp only [run_parallel_analysis]
      rw [if_pos hsent]
    rw [hres]
    refine ⟨by simp, ?_, by simp [RState.contains], by simp [RState.contains],
      by simp [RState.contains], by simp [RState.contains], by simp [RState.contains]⟩
    rw [if_pos hsent]
    simp [sent_error_from_of_error O.sent state hsent]
  · have hfc : (run_fact_check_pipeline O state).get? Key.status
        = some (Value.str "error") := h.resolve_left hsent
    have hres : run_parallel_analysis O state =
        ⟨[(Key.status, Value.str "error"),
          (Key.error_from,
            getValD (run_fact_check_pipeline O state) Key.error_from
              (Value.str "fact_checking")),
          (Key.message,
            getValD (run_fact_check_pipeline O state) Key.message
              (Value.str "Unknown error"))], by simp⟩ := by
      simp only [run_parallel_analysis]
      rw [if_neg hsent, if_pos hfc]
    rw [hres]
    refine ⟨by simp, ?_, by simp [RState.contains], by simp [RState.contains],
      by simp [RState.contains], by simp [RState.contains], by simp [RState.contains]⟩
    rw [if_neg hsent]
    simp [fc_error_from_of_error O state hfc]

/-- Oracles where the sentiment call raises and the fact-check sub-chain
degrades gracefully. -/
def oW4 : AnalysisOracles where
  sent := Except.error "sentiment call failed"
  extract := Except.error "no llm"
  plan := Except.ok []
  search := fun _ => Except.ok ""
  verify := Except.ok []

/-- An input state with a non-empty `cleaned_text`. -/
def stateW4 : RState := ⟨[(Key.cleaned_text, Value.str "some article")], by simp⟩

theorem analysis_branch_failure_atomic_witness :
    (run_parallel_analysis oW4 stateW4).get? Key.status = some (Value.str "error")
    ∧ (run_parallel_analysis oW4 stateW4).get? Key.error_from
        = some (Value.str
            (if (run_sentiment_sdk oW4.sent stateW4).get? Key.status
                = some (Value.str "error")
             then "sentiment_analysis" else "fact_checking"))
    ∧ (run_parallel_analysis oW4 stateW4).contains Key.claims = false
    ∧ (run_parallel_analysis oW4 stateW4).contains Key.facts = false
    ∧ (run_parallel_analysis oW4 stateW4).contains Key.search_queries = false
    ∧ (run_parallel_analysis oW4 stateW4).contains Key.search_results = false
    ∧ (run_parallel_analysis oW4 stateW4).contains Key.sentiment = false :=
  analysis_branch_failure_atomic oW4 stateW4 (Or.inl (by decide))

/-- C8: when both branches of the parallel-analysis stage succeed, the merged
update reports `status=success`, takes `sentiment` from the Sentiment branch,
and takes `claims`, `search_queries`, `search_results` and `facts` from the
FactCheck branch. -/
theorem analysis_mutual_success_merge (O : AnalysisOracles) (state : RState)
    (hs : (run_sentiment_sdk O.sent state).get? Key.status = some (Value.str "success"))
    (hf : (run_fact_check_pipeline O state).get? Key.status
        = some (Value.str "success")) :
    (run_parallel_analysis O state).get? Key.status = some (Value.str "success")
    ∧ (run_parallel_analysis O state).get? Key.sentiment
        = (run_sentiment_sdk O.sent state).get? Key.sentiment
    ∧ (run_parallel_analysis O state).get? Key.claims
        = (run_fact_check_pipeline O state).get? Key.claims
    ∧ (run_parallel_analysis O state).get? Key.search_queries
        = (run_fact_check_pipeline O state).get? Key.search_queries
    ∧ (run_parallel_analysis O state).get? Key.search_results
        = (run_fact_check_pipeline O state).get? Key.search_results
    ∧ (run_parallel_analysis O state).get? Key.facts
        = (run_fact_check_pipeline O state).get? Key.facts := by
  rcases run_sentiment_sdk_cases O.sent state with ⟨msg, hm⟩ | ⟨c, hc⟩
  · rw [hm, sentErrorUpdate_status] at hs
    exact absurd hs (by decide)
  rcases run_fact_check_pipeline_cases O state with ⟨msg, hm⟩ | ⟨cl, sq, sr, fa, hfc⟩
  · rw [hm, fcErrorUpdate_status] at hf
    exact absurd hf (by decide)
  have hsent_ne :
      ¬((run_sentiment_sdk O.sent state).get? Key.status = some (Value.str "error")) := by
    rw [hc, sentSuccess_status]; decide
  have hfc_ne :
      ¬((run_fact_check_pipeline O state).get? Key.status = some (Value.str "error")) := by
    rw [hfc, fcSuccessUpdate_status]; decide
  have hres : run_parallel_analysis O state =
      apply state
        ⟨[(Key.sentiment, pyGet (run_sentiment_sdk O.sent state) Key.sentiment),
          (Key.claims,
            getValD (run_fact_check_pipeline O state) Key.claims (Value.strList [])),
          (Key.search_queries,
            getValD (run_fact_check_pipeline O state) Key.search_queries
              (Value.queryList [])),
          (Key.search_results,
            getValD (run_fact_check_pipeline O state) Key.search_results
              (Value.resultList [])),
          (Key.facts,
            getValD (run_fact_check_pipeline O state) Key.facts (Value.factList [])),
          (Key.status, Value.str "success")], by simp⟩ := by
    simp only [run_parallel_analysis]
    rw [if_neg hsent_ne, if_neg hfc_ne]
  have hsv : pyGet (run_sentiment_sdk O.sent state) Key.sentiment = Value.str c := by
    rw [pyGet, hc, sentSuccess_sentiment]
    rfl
  have hclv : getValD (run_fact_check_pipeline O state) Key.claims (Value.strList [])
      = cl := by
    rw [getValD, hfc]; simp [fcSuccessUpdate, RState.get?]
  have hsqv : getValD (run_fact_check_pipeline O state) Key.search_queries
      (Value.queryList []) = sq := by
    rw [getValD, hfc]; simp [fcSuccessUpdate, RState.get?]
  have hsrv : getValD (run_fact_check_pipeline O state) Key.search_results
      (Value.resultList []) = sr := by
    rw [getValD, hfc]; simp [fcSuccessUpdate, RState.get?]
  have hfav : getValD (run_fact_check_pipeline O state) Key.facts (Value.factList [])
      = fa := by
    rw [getValD, hfc]; simp [fcSuccessUpdate, RState.get?]
  refine ⟨by rw [hres]; simp, ?_, ?_, ?_, ?_, ?_⟩
  · have hl : (run_parallel_analysis O state).get? Key.sentiment
        = some (Value.str c) := by
      rw [hres]; simp [hsv]
    have hr : (run_sentiment_sdk O.sent state).get? Key.sentiment
        = some (Value.str c) := by
      rw [hc]; exact sentSuccess_sentiment state c
    rw [hl, hr]
  · rw [hres, hfc]
    simp [getValD, fcSuccessUpdate]
  · rw [hres, hfc]
    simp [getValD, fcSuccessUpdate]
  · rw [hres, hfc]
    simp [getValD, fcSuccessUpdate]
  · rw [hres, hfc]
    simp [getValD, fcSuccessUpdate]

/-- Oracles where both branches succeed (the fact-check branch degrades to an
empty, successful run). -/
def oW8 : AnalysisOracles where
  sent := Except.ok "Neutral"
  extract := Except.error "no llm"
  plan := Except.ok []
  search := fun _ => Except.ok ""
  verify := Except.ok []

/-- An input state with a non-empty `cleaned_text`. -/
def stateW8 : RState := ⟨[(Key.cleaned_text, Value.str "some article")], by simp⟩

theorem analysis_mutual_success_merge_witness :
    (run_parallel_analysis oW8 stateW8).get? Key.status = some (Value.str "success")
    ∧ (run_parallel_analysis oW8 stateW8).get? Key.sentiment
        = (run_sentiment_sdk oW8.sent stateW8).get? Key.sentiment
    ∧ (run_parallel_analysis oW8 stateW8).get? Key.claims
        = (run_fact_check_pipeline oW8 stateW8).get? Key.claims
    ∧ (run_parallel_analysis oW8 stateW8).get? Key.search_queries
        = (run_fact_check_pipeline oW8 stateW8).get? Key.search_queries
    ∧ (run_parallel_analysis oW8 stateW8).get? Key.search_results
        = (run_fact_check_pipeline oW8 stateW8).get? Key.search_results
    ∧ (run_parallel_analysis oW8 stateW8).get? Key.facts
        = (run_fact_check_pipeline oW8 stateW8).get? Key.facts :=
  analysis_mutual_success_merge oW8 stateW8 (by decide) (by decide)

/-- The fact-check summary update of a run that saw no claims: all outputs
empty, status success. -/
def emptyFactCheckUpdate : RState :=
  fcSuccessUpdate (Value.strList []) (Value.queryList []) (Value.resultList [])
    (Value.factList [])

/-- If the running state has an empty claim list, `plan_searches_node`
returns an empty search plan without consulting the LLM. -/
theorem plan_searches_node_empty (o : Except String (List SearchQuery)) (s : RState)
    (h : getStrListD s Key.claims [] = []) :
    plan_searches_node o s = ⟨[(Key.search_queries, Value.queryList [])], by simp⟩ := by
  simp [plan_searches_node, h]

/-- If the running state has an empty search plan, `execute_searches_node`
returns an empty result list immediately. -/
theorem execute_searches_node_empty (o : Option String → Except String String)
    (s : RState) (h : getQueryListD s Key.search_queries [] = []) :
    execute_searches_node o s
      = ⟨[(Key.search_results, Value.resultList [])], by simp⟩ := by
  simp [execute_searches_node, h]

/-- If the running state has an empty claim list, `verify_facts_node`
short-circuits with empty facts and cannot raise. -/
theorem verify_facts_node_empty (o : Except String (List Fact)) (s : RState)
    (h : getStrListD s Key.claims [] = []) :
    verify_facts_node o s
      = Except.ok ⟨[(Key.facts, Value.factList []),
                    (Key.fact_check_done, Value.bool true)], by simp⟩ := by
  simp [verify_facts_node, h]

/-- C5: when claim extraction fails or extracts no claims, the fact-check
sub-chain raises no exception and degrades gracefully: it completes with
`claims=[]`, `search_queries=[]`, `search_results=[]`, `facts=[]` and
`status=success`, and the parallel-analysis stage (with the sentiment branch
not failing) completes with those empty outputs and `status=success`. -/
theorem empty_claims_graceful (O : AnalysisOracles) (state : RState)
    (h : (extract_claims_node O.extract state).get? Key.claims
        = some (Value.strList [])) :
    pipelineTry O state = Except.ok emptyFactCheckUpdate
    ∧ run_fact_check_pipeline O state = emptyFactCheckUpdate
    ∧ ((run_sentiment_sdk O.sent state).get? Key.status ≠ some (Value.str "error") →
        (run_parallel_analysis O state).get? Key.claims = some (Value.strList [])
        ∧ (run_parallel_analysis O state).get? Key.search_queries
            = some (Value.queryList [])
        ∧ (run_parallel_analysis O state).get? Key.search_results
            = some (Value.resultList [])
        ∧ (run_parallel_analysis O state).get? Key.facts = some (Value.factList [])
        ∧ (run_parallel_analysis O state).get? Key.status
            = some (Value.str "success")) := by
  have hclaims1 :
      getStrListD (apply state (extract_claims_node O.extract state)) Key.claims []
        = [] := by
    simp [getStrListD, h]
  have hpt : pipelineTry O state = Except.ok emptyFactCheckUpdate := by
    simp only [pipelineTry]
    rw [plan_searches_node_empty O.plan _ hclaims1]
    rw [execute_searches_node_empty O.search _ (by simp [getQueryListD])]
    rw [verify_facts_node_empty O.verify _ (by simp [getStrListD, h])]
    simp only [emptyFactCheckUpdate, fcSuccessUpdate, Except.ok.injEq]
    apply Subtype.ext
    simp [getValD, h]
  have hfcp : run_fact_check_pipeline O state = emptyFactCheckUpdate := by
    rw [run_fact_check_pipeline, hpt]
  refine ⟨hpt, hfcp, fun hsent => ?_⟩
  have hfc_ne : ¬((run_fact_check_pipeline O state).get? Key.status
      = some (Value.str "error")) := by
    rw [hfcp]; decide
  have hres : run_parallel_analysis O state =
      apply state
        ⟨[(Key.sentiment, pyGet (run_sentiment_sdk O.sent state) Key.sentiment),
          (Key.claims,
            getValD (run_fact_check_pipeline O state) Key.claims (Value.strList [])),
          (Key.search_queries,
            getValD (run_fact_check_pipeline O state) Key.search_queries
              (Value.queryList [])),
          (Key.search_results,
            getValD (run_fact_check_pipeline O state) Key.search_results
              (Value.resultList [])),
          (Key.facts,
            getValD (run_fact_check_pipeline O state) Key.facts (Value.factList [])),
          (Key.status, Value.str "success")], by simp⟩ := by
    simp only [run_parallel_analysis]
    rw [if_neg hsent, if_neg hfc_ne]
  refine ⟨?_, ?_, ?_, ?_, ?_⟩ <;>
    · rw [hres, hfcp]
      simp [getValD, emptyFactCheckUpdate, fcSuccessUpdate]

/-- Oracles where claim extraction raises and sentiment succeeds. -/
def oW5 : AnalysisOracles where
  sent := Except.ok "Neutral"
  extract := Except.error "llm down"
  plan := Except.ok []
  search := fun _ => Except.ok ""
  verify := Except.ok []

/-- An input state with a non-empty `cleaned_text`. -/
def stateW5 : RState := ⟨[(Key.cleaned_text, Value.str "text")], by simp⟩

theorem empty_claims_graceful_witness :
    pipelineTry oW5 stateW5 = Except.ok emptyFactCheckUpdate
    ∧ run_fact_check_pipeline oW5 stateW5 = emptyFactCheckUpdate
    ∧ ((run_parallel_analysis oW5 stateW5).get? Key.claims = some (Value.strList [])
       ∧ (run_parallel_analysis oW5 stateW5).get? Key.search_queries
           = some (Value.queryList [])
       ∧ (run_parallel_analysis oW5 stateW5).get? Key.search_results
           = some (Value.resultList [])
       ∧ (run_parallel_analysis oW5 stateW5).get? Key.facts = some (Value.factList [])
       ∧ (run_parallel_analysis oW5 stateW5).get? Key.status
           = some (Value.str "success")) := by
  have hmain := empty_claims_graceful oW5 stateW5 (by decide)
  exact ⟨hmain.1, hmain.2.1, hmain.2.2 (by decide)⟩

/-! ### Retry counter bookkeeping (claims about the Generate node) -/

theorem generate_perspective_cases (oracle : Except String PerspectiveOutput)
    (s : RState) :
    (∃ msg, generate_perspective oracle s = genErrorUpdate msg)
    ∨ (∃ p, oracle = Except.ok p ∧ generate_perspective oracle s
        = apply (generate_mutated_input s)
            ⟨[(Key.perspective, Value.persp p),
              (Key.status, Value.str "success")], by simp⟩) := by
  cases hct : (generate_mutated_input s).get? Key.cleaned_text with
  | none =>
    refine Or.inl ⟨"'cleaned_text'", ?_⟩
    simp [generate_perspective.eq_def, hct]
  | some text =>
    by_cases ht : truthy text = false
    · refine Or.inl ⟨"Missing or empty 'cleaned_text' in state", ?_⟩
      simp [generate_perspective.eq_def, hct, ht]
    · cases oracle with
      | ok p =>
        refine Or.inr ⟨p, rfl, ?_⟩
        simp [generate_perspective.eq_def, hct, ht]
      | error msg =>
        refine Or.inl ⟨msg, ?_⟩
        simp [generate_perspective.eq_def, hct, ht]

theorem genErrorUpdate_status (msg : String) :
    (genErrorUpdate msg).get? Key.status = some (Value.str "error") := by
  simp [genErrorUpdate]

theorem genErrorUpdate_retries (msg : String) :
    (genErrorUpdate msg).get? Key.retries = none := by
  simp [genErrorUpdate]

/-- A generate-entry state whose `cleaned_text` is empty, so the node takes
its error branch. -/
def stateC6 : RState := ⟨[(Key.cleaned_text, Value.str "")], by simp⟩

/-- C6 counterexample: on a Generate entry that ends in an error result the
error update carries no `retries` key, so after the engine applies it the
state's `retries` is unchanged (0 here), not one greater than on entry. -/
theorem generate_error_entry_keeps_retries_cex :
    ¬(getIntD (apply stateC6
        (generate_perspective (Except.ok ⟨[], "p"⟩) stateC6)) Key.retries 0
      = getIntD stateC6 Key.retries 0 + 1) := by decide

/-- C6 (amended): on every Generate entry whose result is a success update,
the applied state's `retries` is exactly one greater than on entry (the
increment is performed inside the Generate node itself); on an error entry
the returned update omits `retries`, leaving it unchanged.  In both cases
`retries` is non-decreasing. -/
theorem generate_retries_update (oracle : Except String PerspectiveOutput)
    (s : RState) :
    getIntD (apply s (generate_perspective oracle s)) Key.retries 0
      = (if (generate_perspective oracle s).get? Key.status
            = some (Value.str "success")
         then getIntD s Key.retries 0 + 1
         else getIntD s Key.retries 0)
    ∧ getIntD s Key.retries 0
        ≤ getIntD (apply s (generate_perspective oracle s)) Key.retries 0 := by
  have hmr : (generate_mutated_input s).get? Key.retries
      = some (Value.int (getIntD s Key.retries 0 + 1)) := by
    rw [generate_mutated_input]
    exact get?_insert_self s Key.retries _
  rcases generate_perspective_cases oracle s with ⟨msg, hm⟩ | ⟨p, ho, hp⟩
  · rw [hm]
    have heq : getIntD (apply s (genErrorUpdate msg)) Key.retries 0
        = getIntD s Key.retries 0 := by
      simp [getIntD, genErrorUpdate]
    rw [if_neg (by rw [genErrorUpdate_status]; decide), heq]
    exact ⟨rfl, le_refl _⟩
  · rw [hp]
    have hst : (apply (generate_mutated_input s)
        ⟨[(Key.perspective, Value.persp p),
          (Key.status, Value.str "success")], by simp⟩).get? Key.status
        = some (Value.str "success") := by simp
    rw [if_pos hst]
    have heq : getIntD (apply s (apply (generate_mutated_input s)
        ⟨[(Key.perspective, Value.persp p),
          (Key.status, Value.str "success")], by simp⟩)) Key.retries 0
        = getIntD s Key.retries 0 + 1 := by
      simp [getIntD, hmr]
    rw [heq]
    exact ⟨rfl, by omega⟩

/-! ### In-place mutation (claims about node purity) -/

/-- A typical input state for the Generate node. -/
def stateC9 : RState := ⟨[(Key.cleaned_text, Value.str "hello")], by simp⟩

/-- C9 counterexample: `generate_perspective` mutates the dict it receives —
`state["retries"] = retries + 1` (line 53) — so its input does not stay
unchanged. -/
theorem generate_mutates_input_cex : generate_mutated_input stateC9 ≠ stateC9 := by
  decide

/-- C9 (amended): the Generate node does mutate its received dict in place,
but only its `retries` key (every other key is untouched); and the engine
applies a node's returned update to the channel state before the router runs
on the merged state. -/
theorem node_update_discipline (s : RState) :
    (generate_mutated_input s).get? Key.retries
      = some (Value.int (getIntD s Key.retries 0 + 1))
    ∧ (∀ k, k ≠ Key.retries → (generate_mutated_input s).get? k = s.get? k)
    ∧ (∀ cfg fuel g j, runFrom cfg (fuel + 1) NodeId.judge_perspective s g j
        = runFrom cfg fuel (toNode (route_after_judge (apply s (cfg.judge j s))))
            (apply s (cfg.judge j s)) g (j + 1)) := by
  refine ⟨?_, fun k hk => ?_, fun cfg fuel g j => rfl⟩
  · rw [generate_mutated_input]
    exact get?_insert_self s Key.retries _
  · rw [generate_mutated_input]
    exact get?_insert_ne s _ (Ne.symm hk)

theorem node_update_discipline_witness :
    (generate_mutated_input stateC9).get? Key.retries = some (Value.int 1)
    ∧ (generate_mutated_input stateC9).get? Key.cleaned_text
        = stateC9.get? Key.cleaned_text := by
  have h := node_update_discipline stateC9
  exact ⟨by rw [h.1]; decide, h.2.1 Key.cleaned_text (by decide)⟩

/-! ### The Generate–Judge loop (claim C1) -/

theorem mkConfig_analysis (aFn : RState → RState)
    (genO : Nat → Except String PerspectiveOutput) (judO : Nat → Except String Int) :
    (mkConfig aFn genO judO).analysis = aFn := rfl

theorem mkConfig_gen (aFn : RState → RState)
    (genO : Nat → Except String PerspectiveOutput) (judO : Nat → Except String Int)
    (i : Nat) (s : RState) :
    (mkConfig aFn genO judO).gen i s = generate_perspective (genO i) s := rfl

theorem mkConfig_judge (aFn : RState → RState)
    (genO : Nat → Except String PerspectiveOutput) (judO : Nat → Except String Int)
    (i : Nat) (s : RState) :
    (mkConfig aFn genO judO).judge i s = judge_perspective (judO i) s := rfl

theorem toNode_generate : toNode "generate_perspective" = NodeId.generate_perspective :=
  rfl

theorem toNode_judge : toNode "judge_perspective" = NodeId.judge_perspective := rfl

theorem toNode_store : toNode "store_and_send" = NodeId.store_and_send := rfl

theorem judge_perspective_success (n : Int) (s : RState) (p : PerspectiveOutput)
    (hp : s.get? Key.perspective = some (Value.persp p))
    (hne : pyStripWs p.perspective ≠ "") :
    judge_perspective (Except.ok n) s
      = apply s ⟨[(Key.score, Value.int (clampScore n)),
                  (Key.status, Value.str "success")], by simp⟩ := by
  simp [judge_perspective.eq_def, hp, hne]

/-- One Generate→Judge round of the loop under success oracles: two engine
steps lead from a Generate entry to the state routed after Judge, with the
generation counter and the judged score and retries tracked exactly. -/
theorem gen_judge_round (aFn : RState → RState)
    (genO : Nat → Except String PerspectiveOutput) (judO : Nat → Except String Int)
    (fuel g j : Nat) (s : RState) (t : String) (r : Int) (p : PerspectiveOutput)
    (n : Int)
    (hgp : genO g = Except.ok p)
    (hpt : pyStripWs p.perspective ≠ "")
    (hjn : judO j = Except.ok n)
    (hct : s.get? Key.cleaned_text = some (Value.str t))
    (htne : t ≠ "")
    (hr : getIntD s Key.retries 0 = r) :
    ∃ s2, runFrom (mkConfig aFn genO judO) (fuel + 2) NodeId.generate_perspective s g j
        = runFrom (mkConfig aFn genO judO) fuel
            (toNode (route_after_judge s2)) s2 (g + 1) (j + 1)
      ∧ s2.get? Key.status = some (Value.str "success")
      ∧ getIntD s2 Key.score 0 = clampScore n
      ∧ getIntD s2 Key.retries 0 = r + 1
      ∧ s2.get? Key.cleaned_text = some (Value.str t) := by
  have hgm_ct : (generate_mutated_input s).get? Key.cleaned_text
      = some (Value.str t) := by
    rw [generate_mutated_input, get?_insert_ne s _ (by decide)]
    exact hct
  have hgm_r : (generate_mutated_input s).get? Key.retries
      = some (Value.int (r + 1)) := by
    rw [generate_mutated_input, hr]
    exact get?_insert_self s Key.retries _
  have htr : ¬(truthy (Value.str t) = false) := by simp [truthy, htne]
  have hgen : generate_perspective (genO g) s
      = apply (generate_mutated_input s)
          ⟨[(Key.perspective, Value.persp p),
            (Key.status, Value.str "success")], by simp⟩ := by
    simp [generate_perspective.eq_def, hgm_ct, htr, hgp]
  have hsG_status : (apply s (generate_perspective (genO g) s)).get? Key.status
      = some (Value.str "success") := by
    rw [hgen]; simp
  have hsG_ct : (apply s (generate_perspective (genO g) s)).get? Key.cleaned_text
      = some (Value.str t) := by
    rw [hgen]; simp [hgm_ct, hct]
  have hsG_retries : (apply s (generate_perspective (genO g) s)).get? Key.retries
      = some (Value.int (r + 1)) := by
    rw [hgen]; simp [hgm_r]
  have hsG_persp : (apply s (generate_perspective (genO g) s)).get? Key.perspective
      = some (Value.persp p) := by
    rw [hgen]; simp
  have hrouteG : route_after_generate (apply s (generate_perspective (genO g) s))
      = "judge_perspective" := by
    rw [route_after_generate, if_neg (by rw [hsG_status]; decide)]
  have hjudge : judge_perspective (judO j)
      (apply s (generate_perspective (genO g) s))
      = apply (apply s (generate_perspective (genO g) s))
          ⟨[(Key.score, Value.int (clampScore n)),
            (Key.status, Value.str "success")], by simp⟩ := by
    rw [hjn]
    exact judge_perspective_success n _ p hsG_persp hpt
  refine ⟨apply (apply s (generate_perspective (genO g) s))
      (judge_perspective (judO j) (apply s (generate_perspective (genO g) s))),
    ?_, ?_, ?_, ?_, ?_⟩
  · rw [runFrom_generate]
    rw [show (mkConfig aFn genO judO).gen g s = generate_perspective (genO g) s from rfl]
    rw [hrouteG, toNode_judge, runFrom_judge]
    rw [show (mkConfig aFn genO judO).judge j (apply s (generate_perspective (genO g) s))
        = judge_perspective (judO j) (apply s (generate_perspective (genO g) s))
      from rfl]
  · rw [hjudge]; simp
  · rw [hjudge]; simp [getIntD]
  · rw [hjudge]; simp [getIntD, hsG_retries]
  · rw [hjudge]; simp [hsG_ct]

/-- C1: whenever the analysis stage succeeds and every Generate and Judge
invocation succeeds with a judged score below 70, the engine enters the
Generate node exactly 3 times (not 4) and then reaches Store, with
`retries = 3` in the state entering Store — the Generate–Judge loop is capped
and cannot run unboundedly. -/
theorem engine_reaches_store_after_three (aFn : RState → RState)
    (genO : Nat → Except String PerspectiveOutput) (judO : Nat → Except String Int)
    (s0 : RState) (t : String)
    (hct : (apply s0 (aFn s0)).get? Key.cleaned_text = some (Value.str t))
    (htne : t ≠ "")
    (ha : (apply s0 (aFn s0)).get? Key.status ≠ some (Value.str "error"))
    (hr0 : getIntD (apply s0 (aFn s0)) Key.retries 0 = 0)
    (hg : ∀ i, ∃ p, genO i = Except.ok p ∧ pyStripWs p.perspective ≠ "")
    (hj : ∀ i, ∃ n, judO i = Except.ok n ∧ clampScore n < 70) :
    ∃ sF, runFrom (mkConfig aFn genO judO) 8 NodeId.parallel_analysis s0 0 0
        = Outcome.reached NodeId.store_and_send sF 3
      ∧ getIntD sF Key.retries 0 = 3 := by
  obtain ⟨p0, hp0, hp0t⟩ := hg 0
  obtain ⟨p1, hp1, hp1t⟩ := hg 1
  obtain ⟨p2, hp2, hp2t⟩ := hg 2
  obtain ⟨n0, hn0, hn0lt⟩ := hj 0
  obtain ⟨n1, hn1, hn1lt⟩ := hj 1
  obtain ⟨n2, hn2, hn2lt⟩ := hj 2
  have h0 : runFrom (mkConfig aFn genO judO) 8 NodeId.parallel_analysis s0 0 0
      = runFrom (mkConfig aFn genO judO) 7 NodeId.generate_perspective
          (apply s0 (aFn s0)) 0 0 := by
    rw [runFrom_analysis]
    rw [show (mkConfig aFn genO judO).analysis s0 = aFn s0 from rfl]
    rw [show route_after_parallel_analysis (apply s0 (aFn s0)) = "generate_perspective"
      from by rw [route_after_parallel_analysis, if_neg ha]]
    rw [toNode_generate]
  obtain ⟨s2, heq1, hst2, hsc2, hrt2, hct2⟩ :=
    gen_judge_round aFn genO judO 5 0 0 (apply s0 (aFn s0)) t 0 p0 n0
      hp0 hp0t hn0 hct htne hr0
  have heq1' : runFrom (mkConfig aFn genO judO) 7 NodeId.generate_perspective
      (apply s0 (aFn s0)) 0 0
      = runFrom (mkConfig aFn genO judO) 5 (toNode (route_after_judge s2)) s2 1 1 :=
    heq1
  have hroutej1 : route_after_judge s2 = "generate_perspective" := by
    rw [route_after_judge, if_neg (by rw [hst2]; decide), hsc2, hrt2,
      if_pos hn0lt, if_neg (by decide : ¬((0 : Int) + 1 ≥ 3))]
  obtain ⟨s4, heq2, hst4, hsc4, hrt4, hct4⟩ :=
    gen_judge_round aFn genO judO 3 1 1 s2 t (0 + 1) p1 n1
      hp1 hp1t hn1 hct2 htne hrt2
  have heq2' : runFrom (mkConfig aFn genO judO) 5 NodeId.generate_perspective s2 1 1
      = runFrom (mkConfig aFn genO judO) 3 (toNode (route_after_judge s4)) s4 2 2 :=
    heq2
  have hroutej2 : route_after_judge s4 = "generate_perspective" := by
    rw [route_after_judge, if_neg (by rw [hst4]; decide), hsc4, hrt4,
      if_pos hn1lt, if_neg (by decide : ¬((0 : Int) + 1 + 1 ≥ 3))]
  obtain ⟨s6, heq3, hst6, hsc6, hrt6, hct6⟩ :=
    gen_judge_round aFn genO judO 1 2 2 s4 t (0 + 1 + 1) p2 n2
      hp2 hp2t hn2 hct4 htne hrt4
  have heq3' : runFrom (mkConfig aFn genO judO) 3 NodeId.generate_perspective s4 2 2
      = runFrom (mkConfig aFn genO judO) 1 (toNode (route_after_judge s6)) s6 3 3 :=
    heq3
  have hroutej3 : route_after_judge s6 = "store_and_send" := by
    rw [route_after_judge, if_neg (by rw [hst6]; decide), hsc6, hrt6,
      if_pos hn2lt, if_pos (by decide : (0 : Int) + 1 + 1 + 1 ≥ 3)]
  refine ⟨s6, ?_, ?_⟩
  · rw [h0, heq1', hroutej1, toNode_generate, heq2', hroutej2, toNode_generate,
      heq3', hroutej3, toNode_store]
    exact runFrom_store _ 0 _ _ _
  · rw [hrt6]
    norm_num

/-- An analysis-node behavior that always succeeds. -/
def aFnW : RState → RState := fun _ => ⟨[(Key.status, Value.str "success")], by simp⟩

/-- A generation oracle that always produces the same perspective. -/
def genOW : Nat → Except String PerspectiveOutput := fun _ => Except.ok ⟨[], "p"⟩

/-- A judging oracle that always scores 50. -/
def judOW : Nat → Except String Int := fun _ => Except.ok 50

/-- An initial state carrying only a non-empty `cleaned_text`. -/
def s0W : RState := ⟨[(Key.cleaned_text, Value.str "x")], by simp⟩

theorem engine_reaches_store_after_three_witness :
    ∃ sF, runFrom (mkConfig aFnW genOW judOW) 8 NodeId.parallel_analysis s0W 0 0
        = Outcome.reached NodeId.store_and_send sF 3
      ∧ getIntD sF Key.retries 0 = 3 :=
  engine_reaches_store_after_three aFnW genOW judOW s0W "x"
    (by decide) (by decide) (by decide) (by decide)
    (fun _ => ⟨⟨[], "p"⟩, rfl, by decide⟩)
    (fun _ => ⟨50, rfl, by decide⟩)

end Perspective
